import Mathlib

/-!
Shallow embedding of the recording-session orchestrator implemented in
`src/src/app/page.tsx` (the `Home` React component of the sharely repository).

The component state (React `useState` hooks and `useRef` cells) is modelled as a
record `AppState`.  Platform side effects that the claims talk about — which
device tracks the browser has granted, which tracks have had `stop()` called on
them, how many `AudioContext`s were created and closed, how often the teardown
("Reaper") logic ran, and how many recorder sessions were started — are kept as
ghost fields of the same record; the code mutates them exactly where the source
calls the corresponding platform API.

Each orchestration entry point of the source becomes a function on `AppState`:
`startRecording` (parameterised by a `StartEnv` describing the outcome of each
fallible platform call), `stopRecording`, `resetRecording`, `downloadRecording`,
plus the installed event handlers `dataAvailable` (ondataavailable),
`sessionStop` (onstop) and `videoTrackEnded` (the onended handler of the display video track).

Closure semantics: callbacks invoked from the UI are re-created on every render
with the dependency `[isRecording]`, so a UI-invoked `startRecording` or
`stopRecording` reads the live `isRecording` value.  The `onended` handler,
however, is installed once inside a particular `startRecording` run and closes
over the captured `isRecording` value of that run (and over the stale
`stopRecording`); the model stores that captured value in the active session.
-/

/-- A binary blob: its byte contents and its media type tag. -/
structure Blob where
  bytes : List Nat
  type : String
deriving DecidableEq, Repr

/-- A media stream, as the set of its video and audio track identifiers. -/
structure MediaStream where
  videoTracks : List Nat
  audioTracks : List Nat
deriving DecidableEq, Repr

/-- All tracks of the stream, as returned by `stream.getTracks()`. -/
def MediaStream.getTracks (s : MediaStream) : List Nat :=
  s.videoTracks ++ s.audioTracks

/-- The audio mixing graph built in lines 55-70 of the source: the list of
source streams connected into the merge destination (each given by its track
list, in connection order) and the output track of the destination node. -/
structure MixerGraph where
  connectedSources : List (List Nat)
  destTrackId : Nat
deriving DecidableEq, Repr

/-- Lines 56-70 of the source: create an `AudioContext` and a media-stream
destination; if the screen stream has audio tracks, wrap the first one in a
fresh single-track `MediaStream` and connect it; then connect the microphone
stream. `destTrackId` is the identifier of the output track of the
destination node. -/
def mixAudio (screen mic : MediaStream) (destTrackId : Nat) : MixerGraph :=
  let screenConns : List (List Nat) :=
    match screen.audioTracks with
    | [] => []
    | t :: _ => [[t]]
  { connectedSources := screenConns ++ [mic.getTracks],
    destTrackId := destTrackId }

/-- The audio tracks of the destination stream: a
`MediaStreamAudioDestinationNode` exposes exactly one audio track. -/
def mixerOutput (g : MixerGraph) : List Nat :=
  [g.destTrackId]

/-- Lines 73-76 of the source: the combined stream holds the video tracks of
the screen stream together with the audio tracks of the destination stream. -/
def combineStream (screen : MediaStream) (mixOut : List Nat) : MediaStream :=
  { videoTracks := screen.videoTracks, audioTracks := mixOut }

/-- The resources captured by one successful `startRecording` run: the local
variables of that invocation that its installed handlers close over, plus the
`isRecording` value the run captured from its defining render (used by the
`onended` handler and by the stale `stopRecording` it calls). -/
structure ActiveSession where
  screenStream : MediaStream
  micStream : MediaStream
  ctxId : Nat
  destTrackId : Nat
  combinedStream : MediaStream
  capturedIsRecording : Bool
deriving DecidableEq, Repr

/-- The component state: the five `useState` hooks, the two data-bearing
`useRef` cells, and ghost fields recording the platform side effects. -/
structure AppState where
  isRecording : Bool
  recordedBlob : Option Blob
  error : String
  status : String
  previewUrl : Option Blob
  recordedChunks : List Blob
  active : Option ActiveSession
  grantedTracks : List Nat
  stoppedTracks : List Nat
  contextsCreated : Nat
  contextsClosed : Nat
  reaperRuns : Nat
  sessionsStarted : Nat
deriving DecidableEq, Repr

/-- The initial component state. -/
def initialState : AppState :=
  { isRecording := false
    recordedBlob := none
    error := ""
    status := "Ready to record"
    previewUrl := none
    recordedChunks := []
    active := none
    grantedTracks := []
    stoppedTracks := []
    contextsCreated := 0
    contextsClosed := 0
    reaperRuns := 0
    sessionsStarted := 0 }

/-- The outcome of each fallible platform interaction during one
`startRecording` run: API availability, secure context, the two acquisition
calls (granted stream or thrown error message), the `MediaRecorder`
construction (none means it succeeds, some msg means it throws), and fresh
identifiers for the audio context and its destination track. -/
structure StartEnv where
  apiAvailable : Bool
  secureContext : Bool
  displayResult : Except String MediaStream
  micResult : Except String MediaStream
  recorderFailure : Option String
  ctxId : Nat
  destTrackId : Nat

/-- Lines 115-119 of the source, the catch block: set the error text to the
human-readable message embedding the thrown message, and set the status back to
the idle text.  Nothing else is touched: no track is stopped and no audio
context is closed on this path. -/
def failState (st : AppState) (msg : String) : AppState :=
  { st with
      error := "Failed to start recording: " ++ msg
      status := "Ready to record" }

/-- Lines 16-120 of the source, `startRecording`.  The run captures the
`isRecording` value of its defining render (equal to the live value at
invocation, since the callback is re-created whenever `isRecording` changes).
Granted tracks are appended to the ghost field `grantedTracks` at each
successful acquisition.  Note that a display stream granted under a `video:`
constraint always carries at least one video track, so the indexing at line
105 cannot itself fail. -/
def startRecording (st0 : AppState) (env : StartEnv) : AppState :=
  let captured := st0.isRecording
  let st := { st0 with error := "", status := "Checking compatibility..." }
  if !env.apiAvailable then
    failState st ("Screen recording is not supported in this browser. Please use Chrome, Edge, or Firefox.")
  else if !env.secureContext then
    failState st ("Screen recording requires HTTPS or localhost. Please access this page over HTTPS.")
  else
    let st := { st with status := "Requesting permissions..." }
    match env.displayResult with
    | .error msg => failState st msg
    | .ok screenStream =>
      let st := { st with grantedTracks := st.grantedTracks ++ screenStream.getTracks }
      match env.micResult with
      | .error msg => failState st msg
      | .ok micStream =>
        let st := { st with grantedTracks := st.grantedTracks ++ micStream.getTracks }
        let st := { st with contextsCreated := st.contextsCreated + 1 }
        let mix := mixAudio screenStream micStream env.destTrackId
        let combined := combineStream screenStream (mixerOutput mix)
        let st := { st with recordedChunks := [] }
        match env.recorderFailure with
        | some msg => failState st msg
        | none =>
          { st with
              active := some
                { screenStream := screenStream
                  micStream := micStream
                  ctxId := env.ctxId
                  destTrackId := env.destTrackId
                  combinedStream := combined
                  capturedIsRecording := captured }
              isRecording := true
              status := "Recording in progress..."
              sessionsStarted := st.sessionsStarted + 1 }

/-- The message of the first failing sub-step of a `startRecording` run under
`env`, or `none` when every sub-step succeeds.  Derived from the structure of
`startRecording`; used only to state theorems. -/
def startFailMsg (env : StartEnv) : Option String :=
  if !env.apiAvailable then
    some ("Screen recording is not supported in this browser. Please use Chrome, Edge, or Firefox.")
  else if !env.secureContext then
    some ("Screen recording requires HTTPS or localhost. Please access this page over HTTPS.")
  else
    match env.displayResult with
    | .error msg => some msg
    | .ok _ =>
      match env.micResult with
      | .error msg => some msg
      | .ok _ => env.recorderFailure

/-- Lines 91-102 of the source, the onstop handler of the recorder: build the
artifact blob by concatenating the chunk buffer in order with type video/webm,
store it, set the completed status, stop every track of both captured streams
and close the audio context (the Reaper).  The preview effect of lines 151-157
re-creates the preview handle for the new blob. -/
def sessionStop (st : AppState) (sess : ActiveSession) : AppState :=
  let blob : Blob :=
    { bytes := (st.recordedChunks.map Blob.bytes).flatten, type := "video/webm" }
  { st with
      recordedBlob := some blob
      previewUrl := some blob
      status := "Recording completed"
      stoppedTracks := st.stoppedTracks
        ++ sess.screenStream.getTracks ++ sess.micStream.getTracks
      contextsClosed := st.contextsClosed + 1
      reaperRuns := st.reaperRuns + 1 }

/-- Lines 122-127 of the source, `stopRecording` as invoked from the UI (fresh
closure, live `isRecording`): if a recorder exists and `isRecording` is set,
stop the recorder (which fires its onstop handler) and clear the flag; else do
nothing. -/
def stopRecording (st : AppState) : AppState :=
  match st.active with
  | none => st
  | some sess =>
    if st.isRecording then
      sessionStop { st with isRecording := false } sess
    else st

/-- Lines 85-89 of the source, the ondataavailable handler: append the emitted
segment to the chunk buffer when its size is positive. -/
def dataAvailable (st : AppState) (b : Blob) : AppState :=
  if 0 < b.bytes.length then
    { st with recordedChunks := st.recordedChunks ++ [b] }
  else st

/-- A sequence of data-emission events, in emission order. -/
def emitAll (st : AppState) (bs : List Blob) : AppState :=
  bs.foldl dataAvailable st

/-- Lines 104-109 of the source: the onended handler installed on the display
video track.  It tests the `isRecording` value captured when `startRecording`
ran (not the live one) and, when that captured value is set, calls the same
same-render stale `stopRecording` — whose own guard reads the live recorder ref but the
same captured flag, so it stops the current recorder. -/
def videoTrackEnded (st : AppState) : AppState :=
  match st.active with
  | none => st
  | some sess =>
    if sess.capturedIsRecording then
      sessionStop { st with isRecording := false } sess
    else st

/-- Lines 143-148 of the source, `resetRecording`: clear the artifact, the
preview handle and the error text, and restore the idle status text.  The
chunk buffer ref is not touched here. -/
def resetRecording (st : AppState) : AppState :=
  { st with
      recordedBlob := none
      previewUrl := none
      status := "Ready to record"
      error := "" }

/-- The file produced by a download: its name and payload. -/
structure DownloadFile where
  name : String
  payload : Blob
deriving DecidableEq, Repr

/-- Lines 129-141 of the source, `downloadRecording`: when an artifact exists,
produce a named file for it (timestamped name with the webm extension) through
DOM side effects only; the component state is never written. -/
def downloadRecording (st : AppState) (timestamp : String) :
    AppState × Option DownloadFile :=
  match st.recordedBlob with
  | none => (st, none)
  | some b =>
    (st, some { name := "screen-recording-" ++ timestamp ++ ".webm", payload := b })

/-- The `Errored` session state of the spec, projected onto the observable
fields: a set error text while no recording is running. -/
def AppState.Errored (st : AppState) : Prop :=
  st.error ≠ "" ∧ st.isRecording = false

/-- The `Completed` session state of the spec: an artifact exists and no recording
is running. -/
def AppState.Completed (st : AppState) : Prop :=
  st.recordedBlob.isSome ∧ st.isRecording = false

/-- The `Idle` session state of the spec: no recording, no artifact, no error. -/
def AppState.Idle (st : AppState) : Prop :=
  st.isRecording = false ∧ st.recordedBlob = none ∧ st.error = ""

/-- A granted display stream with one video track and one audio track. -/
def displayOkStream : MediaStream :=
  { videoTracks := [0], audioTracks := [1] }

/-- A granted microphone stream with one audio track. -/
def micOkStream : MediaStream :=
  { videoTracks := [], audioTracks := [2] }

/-- An environment in which every sub-step of `startRecording` succeeds. -/
def envAllOk : StartEnv :=
  { apiAvailable := true
    secureContext := true
    displayResult := .ok displayOkStream
    micResult := .ok micOkStream
    recorderFailure := none
    ctxId := 10
    destTrackId := 100 }

/-- An environment in which display acquisition succeeds and microphone
acquisition then fails. -/
def envMicFail : StartEnv :=
  { apiAvailable := true
    secureContext := true
    displayResult := .ok displayOkStream
    micResult := .error ("Permission denied")
    recorderFailure := none
    ctxId := 10
    destTrackId := 100 }

/-- An environment in which the secure-context check fails. -/
def envInsecure : StartEnv :=
  { apiAvailable := true
    secureContext := false
    displayResult := .ok displayOkStream
    micResult := .ok micOkStream
    recorderFailure := none
    ctxId := 10
    destTrackId := 100 }

/-- An environment in which the encoder construction fails. -/
def envRecorderFail : StartEnv :=
  { apiAvailable := true
    secureContext := true
    displayResult := .ok displayOkStream
    micResult := .ok micOkStream
    recorderFailure := some ("NotSupportedError")
    ctxId := 10
    destTrackId := 100 }

/-- A second all-success environment with distinct fresh identifiers. -/
def envAllOk2 : StartEnv :=
  { apiAvailable := true
    secureContext := true
    displayResult := .ok { videoTracks := [3], audioTracks := [4] }
    micResult := .ok { videoTracks := [], audioTracks := [5] }
    recorderFailure := none
    ctxId := 11
    destTrackId := 101 }

/-- A sample nonempty chunk. -/
def chunkA : Blob :=
  { bytes := [7, 8, 9], type := "video/webm" }

/-- A sample second nonempty chunk, distinct from `chunkA`. -/
def chunkB : Blob :=
  { bytes := [42], type := "video/webm" }

/-- A completed session reached by an actual run: start, one emission, stop. -/
def completedDemo : AppState :=
  stopRecording (dataAvailable (startRecording initialState envAllOk) chunkA)

/-- Five nonempty chunks, as in the 500 ms scenario of the spec. -/
def fiveChunks : List Blob :=
  [{ bytes := [1, 2], type := "video/webm" },
   { bytes := [3], type := "video/webm" },
   { bytes := [4, 5, 6], type := "video/webm" },
   { bytes := [7], type := "video/webm" },
   { bytes := [8, 9], type := "video/webm" }]

/-- Unfolding lemma: a sequence of data emissions appends exactly the segments
of positive size to the chunk buffer, in emission order, and changes nothing
else. -/
theorem emitAll_eq (bs : List Blob) (st : AppState) :
    emitAll st bs =
      { st with recordedChunks :=
          st.recordedChunks ++ bs.filter fun b => decide (0 < b.bytes.length) } := by
  induction bs generalizing st with
  | nil => simp [emitAll]
  | cons b bs ih =>
    have h1 : emitAll st (b :: bs) = emitAll (dataAvailable st b) bs := rfl
    rw [h1, ih]
    unfold dataAvailable
    by_cases hb : 0 < b.bytes.length
    · simp [hb, List.filter_cons]
    · simp [hb, List.filter_cons]

/-- Unfolding lemma: a run of `startRecording` in which every sub-step succeeds
equals the explicit final state. -/
theorem start_ok_eq (st : AppState) (screen mic : MediaStream) (rc dt : Nat) :
    startRecording st
        (StartEnv.mk true true (Except.ok screen) (Except.ok mic) none rc dt) =
      { st with
          error := ""
          status := "Recording in progress..."
          isRecording := true
          recordedChunks := []
          active := some
            { screenStream := screen
              micStream := mic
              ctxId := rc
              destTrackId := dt
              combinedStream := combineStream screen (mixerOutput (mixAudio screen mic dt))
              capturedIsRecording := st.isRecording }
          grantedTracks := (st.grantedTracks ++ screen.getTracks) ++ mic.getTracks
          contextsCreated := st.contextsCreated + 1
          sessionsStarted := st.sessionsStarted + 1 } := rfl

/-- Unfolding lemma: a full successful cycle — start with every sub-step
succeeding, any sequence of emissions, then stop — equals the explicit final
state. -/
theorem cycle_spec (st : AppState) (screen mic : MediaStream) (rc dt : Nat)
    (bs : List Blob) :
    stopRecording (emitAll (startRecording st
        (StartEnv.mk true true (Except.ok screen) (Except.ok mic) none rc dt)) bs) =
      { st with
          error := ""
          status := "Recording completed"
          isRecording := false
          recordedChunks := bs.filter fun b => decide (0 < b.bytes.length)
          recordedBlob := some
            { bytes := ((bs.filter fun b => decide (0 < b.bytes.length)).map Blob.bytes).flatten
              type := "video/webm" }
          previewUrl := some
            { bytes := ((bs.filter fun b => decide (0 < b.bytes.length)).map Blob.bytes).flatten
              type := "video/webm" }
          active := some
            { screenStream := screen
              micStream := mic
              ctxId := rc
              destTrackId := dt
              combinedStream := combineStream screen (mixerOutput (mixAudio screen mic dt))
              capturedIsRecording := st.isRecording }
          grantedTracks := (st.grantedTracks ++ screen.getTracks) ++ mic.getTracks
          stoppedTracks := st.stoppedTracks ++ screen.getTracks ++ mic.getTracks
          contextsCreated := st.contextsCreated + 1
          contextsClosed := st.contextsClosed + 1
          reaperRuns := st.reaperRuns + 1
          sessionsStarted := st.sessionsStarted + 1 } := by
  rw [emitAll_eq]
  rfl

/-- Helper: a stop from any state that is not recording, or has no recorder,
changes nothing. -/
theorem stop_noop (st : AppState)
    (h : st.isRecording = false ∨ st.active = none) :
    stopRecording st = st := by
  unfold stopRecording
  cases hA : st.active with
  | none => rfl
  | some sess =>
    rcases h with h | h
    · rw [h]
      simp
    · rw [hA] at h
      cases h

/-- Helper: stopping is idempotent — a second stop in a row changes nothing. -/
theorem stop_idem (st : AppState) :
    stopRecording (stopRecording st) = stopRecording st := by
  cases hA : st.active with
  | none => rw [stop_noop st (Or.inr hA), stop_noop st (Or.inr hA)]
  | some sess =>
    by_cases hR : st.isRecording = true
    · have h1 : stopRecording st = sessionStop { st with isRecording := false } sess := by
        unfold stopRecording
        rw [hA]
        simp [hR]
      rw [h1]
      apply stop_noop
      left
      simp [sessionStop]
    · have h0 : st.isRecording = false := by
        cases hv : st.isRecording
        · rfl
        · exact absurd hv hR
      rw [stop_noop st (Or.inl h0), stop_noop st (Or.inl h0)]

/-- Helper: a failing `startRecording` run only rewrites the error and status
texts — every other component-state field, and every ghost resource field, is
exactly what it was before the call. -/
theorem start_fail_eq (st : AppState) (env : StartEnv) (m : String)
    (h : startFailMsg env = some m) :
    (startRecording st env).error = "Failed to start recording: " ++ m ∧
    (startRecording st env).status = "Ready to record" ∧
    (startRecording st env).isRecording = st.isRecording ∧
    (startRecording st env).recordedBlob = st.recordedBlob ∧
    (startRecording st env).previewUrl = st.previewUrl ∧
    (startRecording st env).active = st.active ∧
    (startRecording st env).stoppedTracks = st.stoppedTracks ∧
    (startRecording st env).contextsClosed = st.contextsClosed ∧
    (startRecording st env).reaperRuns = st.reaperRuns ∧
    (startRecording st env).sessionsStarted = st.sessionsStarted := by
  obtain ⟨api, sec, dres, mres, rfail, cid, dti⟩ := env
  cases api <;> cases sec <;> cases dres <;> cases mres <;> cases rfail <;>
    simp_all [startFailMsg, startRecording, failState]

/-- Helper: a fully successful `startRecording` run, characterised field-wise
for an arbitrary environment with no failing sub-step. -/
theorem start_ok_fields (st : AppState) (env : StartEnv)
    (h : startFailMsg env = none) :
    (startRecording st env).isRecording = true ∧
    (startRecording st env).recordedChunks = [] ∧
    (startRecording st env).sessionsStarted = st.sessionsStarted + 1 ∧
    (startRecording st env).active.isSome = true ∧
    (startRecording st env).recordedBlob = st.recordedBlob ∧
    (startRecording st env).error = "" ∧
    (startRecording st env).status = "Recording in progress..." := by
  obtain ⟨api, sec, dres, mres, rfail, cid, dti⟩ := env
  cases api <;> cases sec <;> cases dres <;> cases mres <;> cases rfail <;>
    simp_all [startFailMsg, startRecording, failState]

/-- Helper: the human-readable error prefix makes the error text nonempty. -/
theorem fail_text_ne_empty (m : String) :
    ("Failed to start recording: " ++ m) ≠ "" := by
  intro hcontra
  have hl := congrArg String.length hcontra
  rw [String.length_append, String.length_empty] at hl
  have h27 : ("Failed to start recording: " : String).length = 27 := by decide
  rw [h27] at hl
  omega

/-- C1: in the concrete run where display acquisition succeeds (tracks 0 and 1
granted) and microphone acquisition then fails, the session settles into the
error state while not a single granted track has been stopped — the display
capture is leaked, contradicting the claim that the Reaper releases it before
the error propagates.  The catch block of the source (lines 115-119) only sets
the error and status texts. -/
theorem C1_display_leak_on_mic_failure :
    (startRecording initialState envMicFail).error =
      "Failed to start recording: " ++ "Permission denied" ∧
    (startRecording initialState envMicFail).grantedTracks = [0, 1] ∧
    (startRecording initialState envMicFail).stoppedTracks = [] ∧
    (startRecording initialState envMicFail).reaperRuns = 0 ∧
    (startRecording initialState envMicFail).isRecording = false := by
  decide

/-- C2: every failing sub-step of `startRecording` is caught at the
orchestrator boundary: the error text becomes the human-readable message
embedding the triggering failure message, the status text returns to the idle
text, no recorder is installed or started, the recording flag and the stored
artifact are untouched, and — when invoked outside a recording, the only
reachable case — the resulting state satisfies the errored-state predicate, a
stable state rather than a partially initialized one. -/
theorem C2_failure_transitions_to_errored (st : AppState) (env : StartEnv)
    (m : String) (h : startFailMsg env = some m) :
    (startRecording st env).error = "Failed to start recording: " ++ m ∧
    (startRecording st env).status = "Ready to record" ∧
    (startRecording st env).isRecording = st.isRecording ∧
    (startRecording st env).active = st.active ∧
    (startRecording st env).sessionsStarted = st.sessionsStarted ∧
    (st.isRecording = false → (startRecording st env).Errored) := by
  obtain ⟨h1, h2, h3, h4, h5, h6, h7, h8, h9, h10⟩ := start_fail_eq st env m h
  refine ⟨h1, h2, h3, h6, h10, ?_⟩
  intro hIdle
  refine ⟨?_, ?_⟩
  · rw [h1]
    exact fail_text_ne_empty m
  · rw [h3]
    exact hIdle

/-- Witness for C2: the insecure-context failure at the initial state. -/
theorem C2_witness :
    (startRecording initialState envInsecure).error =
      "Failed to start recording: " ++ "Screen recording requires HTTPS or localhost. Please access this page over HTTPS." ∧
    (startRecording initialState envInsecure).Errored :=
  ⟨(C2_failure_transitions_to_errored initialState envInsecure
      ("Screen recording requires HTTPS or localhost. Please access this page over HTTPS.") rfl).1,
   (C2_failure_transitions_to_errored initialState envInsecure
      ("Screen recording requires HTTPS or localhost. Please access this page over HTTPS.") rfl).2.2.2.2.2 rfl⟩

/-- C3: after a successful start from the idle state, the captured recording
flag stored in the onended handler is false, so the external end of the display
video track changes nothing at all: the session stays in the recording state,
no artifact is produced and the Reaper never runs — contradicting the claimed
implicit stop and transition to the completed state. -/
theorem C3_external_end_is_ignored :
    videoTrackEnded (startRecording initialState envAllOk) =
      startRecording initialState envAllOk ∧
    (startRecording initialState envAllOk).isRecording = true ∧
    (videoTrackEnded (startRecording initialState envAllOk)).recordedBlob = none ∧
    (videoTrackEnded (startRecording initialState envAllOk)).reaperRuns = 0 := by
  decide

/-- C4 counterexample: from a completed session holding one buffered chunk,
`resetRecording` leaves the chunk buffer untouched — the chunk buffer is not
cleared by reset, as the claim states it is. -/
theorem C4_reset_keeps_chunk_buffer :
    (stopRecording (dataAvailable (startRecording initialState envAllOk) chunkA)).recordedBlob.isSome = true ∧
    (stopRecording (dataAvailable (startRecording initialState envAllOk) chunkA)).isRecording = false ∧
    (resetRecording (stopRecording (dataAvailable (startRecording initialState envAllOk) chunkA))).recordedChunks = [chunkA] := by
  decide

/-- C4 (amended): `resetRecording` invoked from the completed or the errored
state clears the artifact, the preview handle and the error text, restores the
idle status text and lands in the idle state, while leaving the chunk buffer
untouched; because `startRecording` clears the chunk buffer before recording,
a subsequent successful start, emissions, stop cycle still yields an artifact
containing exactly the new emissions of positive size — no residue of the
prior session. -/
theorem C4_reset_clears_session (st : AppState)
    (h : st.Completed ∨ st.Errored) :
    (resetRecording st).recordedBlob = none ∧
    (resetRecording st).previewUrl = none ∧
    (resetRecording st).error = "" ∧
    (resetRecording st).status = "Ready to record" ∧
    (resetRecording st).recordedChunks = st.recordedChunks ∧
    (resetRecording st).Idle ∧
    (∀ (env : StartEnv) (bs : List Blob), startFailMsg env = none →
      (stopRecording (emitAll (startRecording (resetRecording st) env) bs)).recordedBlob =
        some { bytes := ((bs.filter fun b => decide (0 < b.bytes.length)).map Blob.bytes).flatten
               type := "video/webm" }) := by
  refine ⟨rfl, rfl, rfl, rfl, rfl, ⟨?_, rfl, rfl⟩, ?_⟩
  · rcases h with ⟨_, h2⟩ | ⟨_, h2⟩ <;> exact h2
  · intro env bs hok
    obtain ⟨api, sec, dres, mres, rfail, cid, dti⟩ := env
    cases api <;> cases sec <;> cases dres <;> cases mres <;> cases rfail
    all_goals first
      | rw [cycle_spec]
      | simp [startFailMsg] at hok

/-- Witness for C4: reset of a concretely completed session, followed by a
fresh cycle whose artifact holds only the new chunk. -/
theorem C4_witness :
    (resetRecording completedDemo).recordedBlob = none ∧
    (stopRecording (emitAll (startRecording (resetRecording completedDemo) envAllOk2) [chunkB])).recordedBlob =
      some { bytes := (([chunkB].filter fun b => decide (0 < b.bytes.length)).map Blob.bytes).flatten
             type := "video/webm" } :=
  ⟨(C4_reset_clears_session completedDemo (Or.inl ⟨by decide, by decide⟩)).1,
   (C4_reset_clears_session completedDemo (Or.inl ⟨by decide, by decide⟩)).2.2.2.2.2.2 envAllOk2 [chunkB] rfl⟩

/-- C5 counterexample: from a state that is already recording (one session
started), invoking `startRecording` again with every sub-step succeeding does
begin a second recording session — the session counter reaches two and the
recorder is live, falsifying the claim that start from a non-idle state never
begins a second concurrent session. -/
theorem C5_second_session_while_recording :
    (startRecording initialState envAllOk).isRecording = true ∧
    (startRecording initialState envAllOk).sessionsStarted = 1 ∧
    (startRecording (startRecording initialState envAllOk) envAllOk2).sessionsStarted = 2 ∧
    (startRecording (startRecording initialState envAllOk) envAllOk2).isRecording = true := by
  decide

/-- C5 (amended): `startRecording` performs no state guard — from every state,
including a recording or a completed one, a run whose sub-steps all succeed
starts another session, clearing the shared chunk buffer and installing a new
recorder; exclusion of concurrent sessions is enforced only by the
presentation layer, which renders the start control only when no recording is
running and no artifact exists. -/
theorem C5_no_state_guard_in_start (st : AppState) (env : StartEnv)
    (h : startFailMsg env = none) :
    (startRecording st env).sessionsStarted = st.sessionsStarted + 1 ∧
    (startRecording st env).isRecording = true ∧
    (startRecording st env).recordedChunks = [] ∧
    (startRecording st env).active.isSome = true := by
  obtain ⟨h1, h2, h3, h4, _, _, _⟩ := start_ok_fields st env h
  exact ⟨h3, h1, h2, h4⟩

/-- Witness for C5: the second start of the counterexample run, through the
amended theorem. -/
theorem C5_witness :
    (startRecording (startRecording initialState envAllOk) envAllOk2).sessionsStarted =
      (startRecording initialState envAllOk).sessionsStarted + 1 :=
  (C5_no_state_guard_in_start (startRecording initialState envAllOk) envAllOk2 rfl).1

/-- C6: `stopRecording` from any state that is not recording (no recorder ref,
or recording flag unset — in particular the idle and compatibility-checking
states) is a no-op that does not transition state; stopping twice in a row
equals stopping once; and across a full start, emissions, stop, reset sequence
from the initial state the Reaper release logic (track stop on both captures
plus audio-graph close) runs exactly once, and still exactly once if stop is
called twice in a row. -/
theorem C6_stop_guard_and_single_reap :
    (∀ st : AppState, st.isRecording = false ∨ st.active = none →
      stopRecording st = st) ∧
    (∀ st : AppState, stopRecording (stopRecording st) = stopRecording st) ∧
    (∀ (env : StartEnv) (bs : List Blob), startFailMsg env = none →
      (resetRecording (stopRecording (emitAll (startRecording initialState env) bs))).reaperRuns = 1 ∧
      (resetRecording (stopRecording (emitAll (startRecording initialState env) bs))).contextsClosed = 1 ∧
      (stopRecording (stopRecording (emitAll (startRecording initialState env) bs))).reaperRuns = 1) := by
  refine ⟨stop_noop, stop_idem, ?_⟩
  intro env bs hok
  obtain ⟨api, sec, dres, mres, rfail, cid, dti⟩ := env
  cases api <;> cases sec <;> cases dres <;> cases mres <;> cases rfail
  all_goals first
    | (rw [cycle_spec]
       exact ⟨rfl, rfl, rfl⟩)
    | simp [startFailMsg] at hok

/-- Witness for C6: a stop at the idle initial state is a no-op, and the
concrete one-chunk cycle runs the Reaper exactly once. -/
theorem C6_witness :
    stopRecording initialState = initialState ∧
    (resetRecording (stopRecording (emitAll (startRecording initialState envAllOk) [chunkA]))).reaperRuns = 1 :=
  ⟨C6_stop_guard_and_single_reap.1 initialState (Or.inl rfl),
   (C6_stop_guard_and_single_reap.2.2 envAllOk [chunkA] rfl).1⟩

/-- C7: over any successful session, exactly the emitted segments of positive
size are appended to the chunk buffer, in emission order; the artifact built at
stop is the in-order concatenation of the chunk buffer, its byte length is the
sum of the chunk lengths, and it is tagged with the container media type. -/
theorem C7_chunk_assembly (st : AppState) (env : StartEnv) (bs : List Blob)
    (h : startFailMsg env = none) :
    (stopRecording (emitAll (startRecording st env) bs)).recordedChunks =
      bs.filter (fun b => decide (0 < b.bytes.length)) ∧
    (stopRecording (emitAll (startRecording st env) bs)).recordedBlob =
      some { bytes := ((bs.filter fun b => decide (0 < b.bytes.length)).map Blob.bytes).flatten
             type := "video/webm" } ∧
    ((stopRecording (emitAll (startRecording st env) bs)).recordedBlob.map fun b => b.bytes.length) =
      some (((bs.filter fun b => decide (0 < b.bytes.length)).map fun b => b.bytes.length).sum) ∧
    ((stopRecording (emitAll (startRecording st env) bs)).recordedBlob.map fun b => b.type) =
      some ("video/webm") := by
  obtain ⟨api, sec, dres, mres, rfail, cid, dti⟩ := env
  cases api <;> cases sec <;> cases dres <;> cases mres <;> cases rfail
  all_goals first
    | (rw [cycle_spec]
       refine ⟨rfl, rfl, ?_, rfl⟩
       simp only [Option.map_some', List.length_flatten, List.map_map]
       rfl)
    | simp [startFailMsg] at h

/-- Witness for C7: the five-chunk scenario — the artifact is the in-order
concatenation of the five segments and its length is their summed length. -/
theorem C7_witness :
    (stopRecording (emitAll (startRecording initialState envAllOk) fiveChunks)).recordedBlob =
      some { bytes := ((fiveChunks.filter fun b => decide (0 < b.bytes.length)).map Blob.bytes).flatten
             type := "video/webm" } ∧
    ((stopRecording (emitAll (startRecording initialState envAllOk) fiveChunks)).recordedBlob.map fun b => b.bytes.length) =
      some (((fiveChunks.filter fun b => decide (0 < b.bytes.length)).map fun b => b.bytes.length).sum) :=
  ⟨(C7_chunk_assembly initialState envAllOk fiveChunks rfl).2.1,
   (C7_chunk_assembly initialState envAllOk fiveChunks rfl).2.2.1⟩

/-- C8: for every pair of captures, the microphone stream is always connected
as a source into the merge destination; the display audio track — wrapped as an
independent single-track stream — is connected exactly when the display capture
exposes one; and the output handed to the stream combiner is the single mixed
audio track of the destination in both cases. -/
theorem C8_mixer_wiring (screen mic : MediaStream) (d : Nat) :
    mic.getTracks ∈ (mixAudio screen mic d).connectedSources ∧
    ((∃ t, screen.audioTracks.head? = some t ∧
        [t] ∈ (mixAudio screen mic d).connectedSources) ↔ screen.audioTracks ≠ []) ∧
    mixerOutput (mixAudio screen mic d) = [d] ∧
    (combineStream screen (mixerOutput (mixAudio screen mic d))).audioTracks = [d] ∧
    (combineStream screen (mixerOutput (mixAudio screen mic d))).videoTracks = screen.videoTracks := by
  refine ⟨?_, ⟨?_, ?_⟩, rfl, rfl, rfl⟩
  · cases h : screen.audioTracks <;> simp [mixAudio]
  · rintro ⟨t, ht, _⟩ hempty
    rw [hempty] at ht
    cases ht
  · intro hne
    cases h : screen.audioTracks with
    | nil => exact absurd h hne
    | cons t ts => exact ⟨t, by simp [h], by simp [mixAudio, h]⟩

/-- Witness for C8: concrete wiring with one display audio track present. -/
theorem C8_witness :
    micOkStream.getTracks ∈ (mixAudio displayOkStream micOkStream 100).connectedSources ∧
    (∃ t, displayOkStream.audioTracks.head? = some t ∧
      [t] ∈ (mixAudio displayOkStream micOkStream 100).connectedSources) :=
  ⟨(C8_mixer_wiring displayOkStream micOkStream 100).1,
   ((C8_mixer_wiring displayOkStream micOkStream 100).2.1).2 (by decide)⟩

/-- C9: a failing `startRecording` run leaves the previously stored artifact,
its preview handle, and the recording flag unchanged; the catch path rewrites
only the error text and the status text — a failed retry does not discard an
artifact from an earlier completed session. -/
theorem C9_failure_preserves_artifact (st : AppState) (env : StartEnv)
    (m : String) (h : startFailMsg env = some m) :
    (startRecording st env).recordedBlob = st.recordedBlob ∧
    (startRecording st env).previewUrl = st.previewUrl ∧
    (startRecording st env).isRecording = st.isRecording ∧
    (startRecording st env).error = "Failed to start recording: " ++ m ∧
    (startRecording st env).status = "Ready to record" := by
  obtain ⟨h1, h2, h3, h4, h5, _, _, _, _, _⟩ := start_fail_eq st env m h
  exact ⟨h4, h5, h3, h1, h2⟩

/-- Witness for C9: an encoder-construction failure attempted right after a
completed session leaves the stored artifact and preview in place. -/
theorem C9_witness :
    (startRecording completedDemo envRecorderFail).recordedBlob = completedDemo.recordedBlob ∧
    (startRecording completedDemo envRecorderFail).previewUrl = completedDemo.previewUrl :=
  ⟨(C9_failure_preserves_artifact completedDemo envRecorderFail ("NotSupportedError") rfl).1,
   (C9_failure_preserves_artifact completedDemo envRecorderFail ("NotSupportedError") rfl).2.1⟩

/-- C10: `downloadRecording` never writes any piece of the session state — the
returned state is identical to the input in every field — and it produces a
file exactly when an artifact exists, the file being the stored artifact under
the timestamped webm name. -/
theorem C10_download_leaves_state (st : AppState) (ts : String) :
    (downloadRecording st ts).1 = st ∧
    ((downloadRecording st ts).2 = none ↔ st.recordedBlob = none) ∧
    (∀ b, st.recordedBlob = some b →
      (downloadRecording st ts).2 =
        some { name := ("screen-recording-" ++ ts) ++ ".webm", payload := b }) := by
  unfold downloadRecording
  cases h : st.recordedBlob <;> simp_all

/-- Witness for C10: the completed demo session yields its artifact as the
download payload while the state is untouched; the initial state yields no
file. -/
theorem C10_witness :
    (downloadRecording completedDemo ("2026-10-12T00:00:00")).1 = completedDemo ∧
    ((downloadRecording initialState ("2026-10-12T00:00:00")).2 = none ↔
      initialState.recordedBlob = none) :=
  ⟨(C10_download_leaves_state completedDemo ("2026-10-12T00:00:00")).1,
   (C10_download_leaves_state initialState ("2026-10-12T00:00:00")).2.1⟩
